import Mathlib

/-!
Shallow embedding of the `news-trend` content pipeline.

The embedded code is `src/main.py` (the pipeline orchestrator, function
`run_pipeline`) and `src/app.py` (the Flask run tracker: `trigger_pipeline`,
`run_pipeline_async`, `get_pipeline_status`).

External collaborators (trends feed, news search, article fetch, OpenAI
rewrite, image generation, WordPress publish, and the BeautifulSoup HTML
parser) are modelled as oracles packaged in an `Env` record.  A call that the
Python code wraps in a `try` block may raise; such calls are modelled with
`Except Unit` where `.error ()` stands for a raised exception.  Calls whose
Python implementation catches every exception internally and returns a
sentinel (`fetch_article_content`, `get_news_for_trend`,
`get_top_trends_rss`) are modelled with plain `Option`/`List` results.

Machine-level details that matter to the claims and are kept faithfully:
  * the cleanup block at the end of each trend iteration of `run_pipeline`
    reads the Python locals `post_id`, `file_path`, `image_path`, which are
    only ever assigned inside the per-article processing; reading an
    unassigned local raises `NameError`.  Local variables are therefore
    modelled with an outer `Option` layer: `none` = never assigned.
  * `os.remove` is wrapped in `try/except` and may fail, leaving the file in
    place; removal attempts consult the oracle `removeOk`, indexed by a
    running attempt counter.
  * `time.sleep(2)` sits at the end of the per-article `try` block and
    `time.sleep(5)` after the article loop; sleeps are recorded in a trace.
-/

namespace NewsTrend

/-- Python `str.strip()`: drop leading and trailing whitespace. -/
def strip (s : String) : String :=
  ⟨((s.data.dropWhile Char.isWhitespace).reverse.dropWhile Char.isWhitespace).reverse⟩

/-- Abstraction of a parsed `BeautifulSoup` document: for each CSS selector,
the raw text of the first matching element (`none` when no element matches),
and the raw text of the `<title>` tag (`none` when the document has none). -/
structure Soup where
  select_one : String → Option String
  titleTag : Option String

/-- One news item as returned by `get_news_for_trend`:
`article.get('title','')`, `article.get('url','')` and
`article.get('source',{}).get('name', ...)` (the latter modelled as an
optional source name, defaulted at use site as in `main.py`). -/
structure Article where
  title : String
  url : String
  source : Option String

/-- One entry of the run's `results` list as built in `run_pipeline`
(`wordpress_id := none` models a dict without the `wordpress_id` key). -/
structure Result where
  trend : String
  title : String
  file_path : String
  image_path : Option String
  wordpress_id : Option String
  status : String
deriving DecidableEq

/-- The dict persisted to `results.json` by `run_pipeline`. -/
structure Summary where
  total_processed : Nat
  results : List Result
deriving DecidableEq

/-- Oracles for the external collaborators of `run_pipeline`.
`Except Unit α` results model calls made inside the per-article `try` block:
`.error ()` is a raised exception.  `soupOf` is BeautifulSoup parsing:
`none` means the parse raised. -/
structure Env where
  /-- `get_top_trends_rss(max_trends=MAX_TRENDS)`; empty on failure. -/
  trends : List String
  /-- `get_news_for_trend(trend, ...)`; empty on failure / no results. -/
  news : String → List Article
  /-- `fetch_article_content(url)`; `none` on any error (caught inside). -/
  fetch : String → Option String
  /-- `BeautifulSoup(html, 'html.parser')`; `none` = the parse raised. -/
  soupOf : String → Option Soup
  /-- `rewrite_article_content(html, title, source_name, key)`. -/
  rewrite : String → String → String → Except Unit (Option String)
  /-- `generate_image_for_article(title, content, dir, key)`; on success the
  returned path is a freshly written file. -/
  image : String → String → Except Unit (Option String)
  /-- `publish_article_to_wordpress(title, content, ..., image, cats, tags)`. -/
  publish : String → String → Option String → Except Unit (Option String)
  /-- Path produced by `save_article_to_file` for the k-th saved article with
  the given title (the timestamp component is modelled by the save counter). -/
  savePath : Nat → String → String
  /-- Whether the k-th `os.remove` attempt of the run succeeds. -/
  removeOk : Nat → Bool
  /-- `WORDPRESS_URL and WORDPRESS_USERNAME and WORDPRESS_PASSWORD`. -/
  creds : Bool

/-- Python truthiness of an optional string (`if post_id:` on a value that is
`None` or a string). -/
def truthy : Option String → Bool
  | none => false
  | some s => s ≠ ""

/-- The selector list tried by `extract_article_title_from_html`. -/
def title_selectors : List String :=
  ["h1", "h1.article-title", "h1.entry-title", "h1.post-title",
   "article h1", ".article-header h1", ".post-header h1"]

/-- `extract_article_title_from_html` from `main.py`: the first selector in
`title_selectors` whose element exists and has nonempty stripped text wins;
otherwise the stripped text of the `<title>` tag if present; otherwise
`None`.  A parse exception is caught inside and yields `None`. -/
def extract_article_title_from_html (soupOf : String → Option Soup)
    (html : String) : Option String :=
  match soupOf html with
  | none => none
  | some soup =>
    match title_selectors.findSome? (fun sel =>
        (soup.select_one sel).bind
          (fun t => if strip t = "" then none else some (strip t))) with
    | some t => some t
    | none => soup.titleTag.map strip

/-- Line 168 of `main.py`:
`extracted_title = extract_article_title_from_html(html_content) or article_title`. -/
def working_title (env : Env) (html fallbackTitle : String) : String :=
  match extract_article_title_from_html env.soupOf html with
  | some t => if t = "" then fallbackTitle else t
  | none => fallbackTitle

/-- Mutable state threaded through `run_pipeline`: the `results` list, the
set of files existing in the output directory, a counter for fresh save
paths (the timestamp), a counter of `os.remove` attempts, the Python locals
`post_id` / `file_path` / `image_path` (outer `none` = local never assigned),
and the trace of `time.sleep` calls. -/
structure PState where
  results : List Result
  files : List String
  counter : Nat
  removeCount : Nat
  post_id : Option (Option String)
  file_path : Option String
  image_path : Option (Option String)
  sleeps : List Nat
deriving DecidableEq

def initState : PState :=
  { results := [],
    files := [],
    counter := 0,
    removeCount := 0,
    post_id := none,
    file_path := none,
    image_path := none,
    sleeps := [] }

/-- `save_article_to_file(title, content, dir)` followed by the assignment
`file_path = ...`: writes a fresh file and returns its path. -/
def save_article_to_file (env : Env) (title : String) (s : PState) :
    String × PState :=
  let fp := env.savePath s.counter title
  (fp, { s with
         files := s.files ++ [fp],
         counter := s.counter + 1,
         file_path := some fp })

/-- Main.py lines 185-187: `rewritten_title` is the stripped text of the
first `h1` of the rewritten content if one exists, else the synthesized
string `f"Tendência: {trend} - {extracted_title}"`. -/
def rewrittenTitle (trend ext : String) (soup : Soup) : String :=
  match soup.select_one "h1" with
  | some t => strip t
  | none => "Tendência: " ++ trend ++ " - " ++ ext

/-- The per-article `try` block of `run_pipeline` (main.py lines 171-250),
entered with the extracted working title and the fetched html.
`.error s` = an exception was raised with the state already mutated to `s`
(caught by the handler at lines 251-253, which `continue`s). -/
def articleTry (env : Env) (trend : String) (a : Article)
    (extracted_title html : String) (s : PState) : Except PState PState :=
  let source_name := a.source.getD "Fonte desconhecida"
  match env.rewrite html extracted_title source_name with
  | .error _ => .error s
  | .ok none => .ok s
  | .ok (some rc) =>
    if rc = "" then .ok s
    else
      match env.soupOf rc with
      | none => .error s
      | some soup =>
        let rewritten_title := rewrittenTitle trend extracted_title soup
        match save_article_to_file env rewritten_title s with
        | (fp, s1) =>
          match env.image rewritten_title rc with
          | .error _ => .error s1
          | .ok imgOpt =>
            let s2 := { s1 with
                        image_path := some imgOpt,
                        files := s1.files ++ imgOpt.toList }
            if env.creds then
              match env.publish rewritten_title rc imgOpt with
              | .error _ => .error s2
              | .ok pid =>
                let entry : Result :=
                  if truthy pid then
                    { trend := trend,
                      title := rewritten_title,
                      file_path := fp,
                      image_path := imgOpt,
                      wordpress_id := pid,
                      status := "published" }
                  else
                    { trend := trend,
                      title := rewritten_title,
                      file_path := fp,
                      image_path := imgOpt,
                      wordpress_id := none,
                      status := "not_published" }
                .ok { s2 with
                      post_id := some pid,
                      results := s2.results ++ [entry],
                      sleeps := s2.sleeps ++ [2] }
            else
              let entry : Result :=
                { trend := trend,
                  title := rewritten_title,
                  file_path := fp,
                  image_path := imgOpt,
                  wordpress_id := none,
                  status := "not_published_no_credentials" }
              .ok { s2 with
                    results := s2.results ++ [entry],
                    sleeps := s2.sleeps ++ [2] }

/-- The `except` handler at main.py lines 251-253: a raised exception is
logged and turned into `continue`, keeping whatever mutations had already
happened. -/
def caughtState : Except PState PState → PState
  | .ok s => s
  | .error s => s

/-- One iteration of the article loop of `run_pipeline` (main.py lines
149-253): skip on missing url, failed/empty fetch, then run the `try` block;
the `except` handler turns a raised exception into `continue` with the
partially mutated state. -/
def processArticle (env : Env) (trend : String) (a : Article) (s : PState) :
    PState :=
  if a.url = "" then s
  else
    match env.fetch a.url with
    | none => s
    | some html =>
      if html = "" then s
      else caughtState (articleTry env trend a (working_title env html a.title) html s)

/-- The article loop over one trend's news list, in source order. -/
def processArticles (env : Env) (trend : String) :
    List Article → PState → PState
  | [], s => s
  | a :: rest, s => processArticles env trend rest (processArticle env trend a s)

/-- One `os.remove(p)` attempt wrapped in `try/except` (failure is logged and
ignored; the file then stays). -/
def removeFile (env : Env) (p : String) (s : PState) : PState :=
  if env.removeOk s.removeCount then
    { s with
      files := s.files.filter (· ≠ p),
      removeCount := s.removeCount + 1 }
  else
    { s with removeCount := s.removeCount + 1 }

/-- The cleanup block at the end of each trend iteration (main.py lines
256-269).  It reads the locals `post_id`, `file_path`, `image_path`; if the
guarding local is unassigned, Python raises `NameError` (`.error s`), which
escapes to the top-level handler of `run_pipeline`. -/
def cleanupStep (env : Env) (s : PState) : Except PState PState :=
  match s.post_id with
  | none => .error s
  | some pid =>
    if truthy pid then
      match s.file_path with
      | none => .error s
      | some fp =>
        let s1 := if s.files.contains fp then removeFile env fp s else s
        match s.image_path with
        | none => .error s1
        | some imgOpt =>
          match imgOpt with
          | some ip =>
            if s1.files.contains ip then .ok (removeFile env ip s1)
            else .ok s1
          | none => .ok s1
    else
      .ok s

/-- One iteration of the trend loop of `run_pipeline` (main.py lines
136-269): fetch the news list (empty → `continue`, skipping the sleep and
the cleanup), process every article in order, `time.sleep(5)`, then run the
cleanup block (whose `NameError` aborts the run). -/
def processTrend (env : Env) (trend : String) (s : PState) :
    Except PState PState :=
  match env.news trend with
  | [] => .ok s
  | a :: rest =>
    let s1 := processArticles env trend (a :: rest) s
    cleanupStep env { s1 with sleeps := s1.sleeps ++ [5] }

/-- The trend loop; a raised exception aborts the remaining trends. -/
def processTrends (env : Env) : List String → PState → Except PState PState
  | [], s => .ok s
  | t :: rest, s =>
    match processTrend env t s with
    | .ok s' => processTrends env rest s'
    | .error s' => .error s'

/-- Observable outcome of one `run_pipeline()` call: the returned boolean,
whether `trends.json` was written, the persisted `results.json` content
(`none` when the run aborted before writing it), the in-memory results list,
the files left in the output directory, and the sleep trace. -/
structure RunOut where
  success : Bool
  trendsWritten : Bool
  resultsJson : Option Summary
  memResults : List Result
  files : List String
  sleeps : List Nat
deriving DecidableEq

/-- `run_pipeline` from `main.py`: empty trend list → return `False` before
writing `trends.json`; otherwise write `trends.json`, run the trend loop,
and on normal completion write `results.json` with
`total_processed = len(results)` and return `True`.  An exception escaping
the loop (the cleanup `NameError`) is caught by the top-level handler and
yields `False` with no `results.json`. -/
def run_pipeline (env : Env) : RunOut :=
  match env.trends with
  | [] =>
    { success := false,
      trendsWritten := false,
      resultsJson := none,
      memResults := [],
      files := [],
      sleeps := [] }
  | t :: rest =>
    match processTrends env (t :: rest) initState with
    | .ok s =>
      { success := true,
        trendsWritten := true,
        resultsJson := some { total_processed := s.results.length,
                              results := s.results },
        memResults := s.results,
        files := s.files,
        sleeps := s.sleeps }
    | .error s =>
      { success := false,
        trendsWritten := true,
        resultsJson := none,
        memResults := s.results,
        files := s.files,
        sleeps := s.sleeps }

/-!
Spec-side projection used for the ordering/count claim (§5 "Ordering
guarantees" and §8 "total_processed equals the length of its results list").
These definitions follow the spec's words — entries are listed per trend in
Trend Source order and per article in News Source order — and are compared
with the implementation embedding by a refinement theorem.  The only state
they may consult is the save counter (which determines file names).
-/

/-- Entries contributed by the `try` block of one article (0 or 1), plus the
save counter afterwards, per the spec's per-article stage description. -/
def tryEntries (env : Env) (trend : String) (a : Article)
    (ext html : String) (c : Nat) : List Result × Nat :=
  match env.rewrite html ext (a.source.getD "Fonte desconhecida") with
  | .error _ => ([], c)
  | .ok none => ([], c)
  | .ok (some rc) =>
    if rc = "" then ([], c)
    else
      match env.soupOf rc with
      | none => ([], c)
      | some soup =>
        let rewritten_title := rewrittenTitle trend ext soup
        let fp := env.savePath c rewritten_title
        match env.image rewritten_title rc with
        | .error _ => ([], c + 1)
        | .ok imgOpt =>
          if env.creds then
            match env.publish rewritten_title rc imgOpt with
            | .error _ => ([], c + 1)
            | .ok pid =>
              (if truthy pid then
                [{ trend := trend,
                   title := rewritten_title,
                   file_path := fp,
                   image_path := imgOpt,
                   wordpress_id := pid,
                   status := "published" }]
               else
                [{ trend := trend,
                   title := rewritten_title,
                   file_path := fp,
                   image_path := imgOpt,
                   wordpress_id := none,
                   status := "not_published" }], c + 1)
          else
            ([{ trend := trend,
                title := rewritten_title,
                file_path := fp,
                image_path := imgOpt,
                wordpress_id := none,
                status := "not_published_no_credentials" }], c + 1)

/-- Entries contributed by one article candidate (skips contribute none). -/
def articleEntries (env : Env) (trend : String) (a : Article) (c : Nat) :
    List Result × Nat :=
  if a.url = "" then ([], c)
  else
    match env.fetch a.url with
    | none => ([], c)
    | some html =>
      if html = "" then ([], c)
      else tryEntries env trend a (working_title env html a.title) html c

/-- Entries of one trend's candidates, in News Source order. -/
def trendEntries (env : Env) (trend : String) :
    List Article → Nat → List Result × Nat
  | [], c => ([], c)
  | a :: rest, c =>
    let p1 := articleEntries env trend a c
    let p2 := trendEntries env trend rest p1.2
    (p1.1 ++ p2.1, p2.2)

/-- The whole run's result list per the spec's ordering sentence: trends in
Trend Source order, articles within a trend in News Source order. -/
def resultsInOrder (env : Env) : List String → Nat → List Result
  | [], _ => []
  | t :: ts, c =>
    let p := trendEntries env t (env.news t) c
    p.1 ++ resultsInOrder env ts p.2

/-!
Run tracker (`src/app.py`).  The process-wide dict `pipeline_status` is
shared between the Flask request handlers and the background thread spawned
by `trigger_pipeline`.  We model up to two POST /trend-news calls and their
spawned threads as a small interleaving machine: each atomic step is one
contiguous block of Python statements touching the shared dict.
-/

/-- The process-wide `pipeline_status` dict of `app.py`, at its initial
value `{is_running: False, last_run: None, last_status: None, results: None}`. -/
structure TrackerState where
  is_running : Bool
  last_run : Option Nat
  last_status : Option String
  results_loaded : Option Summary
deriving DecidableEq

def initTracker : TrackerState :=
  { is_running := false,
    last_run := none,
    last_status := none,
    results_loaded := none }

/-- Bookkeeping for one POST /trend-news call and the background thread it
may spawn: the guard decision (`accepted`), the `started_at` field of the
HTTP response once built, and the progress of the spawned thread. -/
structure TrigView where
  accepted : Option Bool
  response_started_at : Option (Option Nat)
  spawned : Bool
  set_done : Bool
  finished : Bool
deriving DecidableEq

def initView : TrigView :=
  { accepted := none,
    response_started_at := none,
    spawned := false,
    set_done := false,
    finished := false }

/-- Whole-system state: the shared dict plus the two calls' views. -/
structure Sys where
  st : TrackerState
  t0 : TrigView
  t1 : TrigView
deriving DecidableEq

def initSys : Sys := { st := initTracker, t0 := initView, t1 := initView }

def Sys.view (σ : Sys) : Bool → TrigView
  | false => σ.t0
  | true => σ.t1

def Sys.withView (σ : Sys) : Bool → TrigView → Sys
  | false, v => { σ with t0 := v }
  | true, v => { σ with t1 := v }

/-- What call i's background run amounts to: the wall-clock value taken by
`datetime.now()` when the thread executes `pipeline_status["last_run"] = ...`,
the boolean returned by `run_pipeline()`, and the content of `results.json`
on disk when the thread finishes (`none` = file absent). -/
structure ThreadSpec where
  time : Nat
  success : Bool
  persisted : Option Summary
deriving DecidableEq

/-- `trigger_pipeline` up to and including `thread.start()` (app.py lines
79-90): read the guard `pipeline_status["is_running"]`; if true, build the
409 response (its `started_at` reads `last_run` in the same handler, with no
spawned thread in between); otherwise spawn the background thread. -/
def trigger_check (i : Bool) (σ : Sys) : Sys :=
  let v := σ.view i
  if v.accepted.isSome then σ
  else if σ.st.is_running then
    σ.withView i { v with
                   accepted := some false,
                   response_started_at := some σ.st.last_run }
  else
    σ.withView i { v with accepted := some true, spawned := true }

/-- The 202 response of `trigger_pipeline` (app.py lines 92-96): its
`started_at` field reads `pipeline_status["last_run"]` at response time. -/
def trigger_respond (i : Bool) (σ : Sys) : Sys :=
  let v := σ.view i
  if v.accepted = some true ∧ v.response_started_at = none then
    σ.withView i { v with response_started_at := some σ.st.last_run }
  else σ

/-- The first statements of `run_pipeline_async` executed by the spawned
thread (app.py lines 49-50): `is_running = True; last_run = now`. -/
def bg_set (spec : Bool → ThreadSpec) (i : Bool) (σ : Sys) : Sys :=
  let v := σ.view i
  if v.spawned ∧ ¬v.set_done then
    let σ1 := σ.withView i { v with set_done := true }
    { σ1 with
      st := { σ1.st with
              is_running := true,
              last_run := some (spec i).time } }
  else σ

/-- The tail of `run_pipeline_async` (app.py lines 56-65): after the run
returns, set `is_running = False`, set `last_status` from the boolean, and
load `results.json` into `pipeline_status["results"]` if the file exists
(missing file keeps the previous value). -/
def bg_finish (spec : Bool → ThreadSpec) (i : Bool) (σ : Sys) : Sys :=
  let v := σ.view i
  if v.set_done ∧ ¬v.finished then
    let σ1 := σ.withView i { v with finished := true }
    { σ1 with
      st := { σ1.st with
              is_running := false,
              last_status := some (if (spec i).success then "success" else "error"),
              results_loaded := match (spec i).persisted with
                | some r => some r
                | none => σ1.st.results_loaded } }
  else σ

/-- One atomic scheduling unit: which call/thread runs its next block. -/
inductive Step where
  | check : Bool → Step
  | respond : Bool → Step
  | bgset : Bool → Step
  | bgfin : Bool → Step
deriving DecidableEq

def stepSys (spec : Bool → ThreadSpec) (σ : Sys) : Step → Sys
  | .check i => trigger_check i σ
  | .respond i => trigger_respond i σ
  | .bgset i => bg_set spec i σ
  | .bgfin i => bg_finish spec i σ

/-- Run a schedule (interleaving) from the process-start state. -/
def execSys (spec : Bool → ThreadSpec) (steps : List Step) : Sys :=
  steps.foldl (stepSys spec) initSys

/-- `get_pipeline_status` (GET /trend-news/status): a pure read of the
shared dict. -/
def get_pipeline_status (σ : Sys) : Bool × Option Nat × Option String :=
  (σ.st.is_running, σ.st.last_run, σ.st.last_status)

/-!
Auxiliary description of the cleanup's effect on the file set, and concrete
oracle instantiations used to evaluate the embedding at specific runs.
-/

/-- The file set after a cleanup whose removes all succeed: the currently
referenced markup path and (if any) image path are removed, nothing else. -/
def filesAfterCleanup (files : List String) (fp : String)
    (io : Option String) : List String :=
  match io with
  | some ip => (files.filter (· ≠ fp)).filter (· ≠ ip)
  | none => files.filter (· ≠ fp)

/-- A parsed document whose only matched selector is `h1`, with text `t`. -/
def soupH1 (t : String) : Soup :=
  { select_one := fun sel => if sel = "h1" then some t else none,
    titleTag := none }

/-- Run with no WordPress credentials: one trend, one article that fetches,
rewrites and saves successfully.  The publish oracle raises if called, so a
recorded `not_published_no_credentials` entry proves publish was not
attempted. -/
def envNoCreds : Env :=
  { trends := ["t"],
    news := fun tr =>
      if tr = "t" then [{ title := "A", url := "ua", source := some "S" }] else [],
    fetch := fun u => if u = "ua" then some "ha" else none,
    soupOf := fun h =>
      if h = "ha" then some (soupH1 "TA")
      else if h = "ra" then some (soupH1 "RA")
      else none,
    rewrite := fun h _ _ => if h = "ha" then .ok (some "ra") else .error (),
    image := fun _ _ => .ok none,
    publish := fun _ _ _ => .error (),
    savePath := fun c _ => if c = 0 then "F0" else "F1",
    removeOk := fun _ => true,
    creds := false }

/-- Run with credentials: one trend whose two articles are both published
(files `F0`/`F1`, the second with image `I1`, post ids `1`/`2`). -/
def envTwoPublished : Env :=
  { trends := ["t"],
    news := fun tr =>
      if tr = "t" then
        [{ title := "A", url := "ua", source := some "S" },
         { title := "B", url := "ub", source := some "S" }]
      else [],
    fetch := fun u =>
      if u = "ua" then some "ha" else if u = "ub" then some "hb" else none,
    soupOf := fun h =>
      if h = "ha" then some (soupH1 "TA")
      else if h = "hb" then some (soupH1 "TB")
      else if h = "ra" then some (soupH1 "RA")
      else if h = "rb" then some (soupH1 "RB")
      else none,
    rewrite := fun h _ _ =>
      if h = "ha" then .ok (some "ra")
      else if h = "hb" then .ok (some "rb")
      else .error (),
    image := fun _ rc => if rc = "ra" then .ok none else .ok (some "I1"),
    publish := fun _ rc _ =>
      if rc = "ra" then .ok (some "1") else .ok (some "2"),
    savePath := fun c _ => if c = 0 then "F0" else if c = 1 then "F1" else "F2",
    removeOk := fun _ => true,
    creds := true }

/-- Run with credentials: first article publishes (one `time.sleep(2)`), the
second candidate has an empty url and is skipped. -/
def envSkipNoSleep : Env :=
  { envTwoPublished with
    news := fun tr =>
      if tr = "t" then
        [{ title := "A", url := "ua", source := some "S" },
         { title := "B", url := "", source := some "S" }]
      else [] }

/-- Two trends: trend `t1` publishes article `A` to file `F0` but the first
`os.remove` attempt fails (caught and ignored), so `F0` survives trend `t1`;
trend `t2`'s only candidate fails to fetch, and `t2`'s cleanup — gated on
the stale `post_id` from trend `t1` — removes `F0`. -/
def envStaleCleanup : Env :=
  { trends := ["t1", "t2"],
    news := fun tr =>
      if tr = "t1" then [{ title := "A", url := "ua", source := some "S" }]
      else if tr = "t2" then [{ title := "B", url := "ub", source := some "S" }]
      else [],
    fetch := fun u => if u = "ua" then some "ha" else none,
    soupOf := fun h =>
      if h = "ha" then some (soupH1 "TA")
      else if h = "ra" then some (soupH1 "RA")
      else none,
    rewrite := fun h _ _ => if h = "ha" then .ok (some "ra") else .error (),
    image := fun _ _ => .ok none,
    publish := fun _ _ _ => .ok (some "1"),
    savePath := fun c _ => if c = 0 then "F0" else "F1",
    removeOk := fun n => n ≠ 0,
    creds := true }

/-- A trend source that yields nothing (failure of the trends feed). -/
def envNoTrends : Env :=
  { trends := [],
    news := fun _ => [],
    fetch := fun _ => none,
    soupOf := fun _ => none,
    rewrite := fun _ _ _ => .error (),
    image := fun _ _ => .ok none,
    publish := fun _ _ _ => .ok none,
    savePath := fun _ _ => "F",
    removeOk := fun _ => true,
    creds := false }

/-- Thread parameters for the tracker machine examples: the first call's
run starts at time 10, the second at time 20; both runs succeed. -/
def trackSpec : Bool → ThreadSpec :=
  fun i =>
    if i then { time := 20, success := true, persisted := none }
    else { time := 10, success := true, persisted := none }


/-- The single result entry recorded by the no-credentials run `envNoCreds`. -/
def entryNC : Result :=
  { trend := "t", title := "RA", file_path := "F0", image_path := none,
    wordpress_id := none, status := "not_published_no_credentials" }

/-- The pipeline state at which `envNoCreds`'s run raises `NameError` in the
trend cleanup (the `post_id` local was never assigned). -/
def stErrNoCreds : PState :=
  { results := [entryNC], files := ["F0"], counter := 1, removeCount := 0,
    post_id := none, file_path := some "F0", image_path := some none,
    sleeps := [2, 5] }

/-- First published entry of `envTwoPublished`'s run. -/
def entryA : Result :=
  { trend := "t", title := "RA", file_path := "F0", image_path := none,
    wordpress_id := some "1", status := "published" }

/-- Second published entry of `envTwoPublished`'s run. -/
def entryB : Result :=
  { trend := "t", title := "RB", file_path := "F1", image_path := some "I1",
    wordpress_id := some "2", status := "published" }

/-- The `results.json` content persisted by `envTwoPublished`'s run. -/
def summAB : Summary := { total_processed := 2, results := [entryA, entryB] }

/-- The entry published during trend `t1` of `envStaleCleanup`'s run. -/
def entryT1 : Result :=
  { trend := "t1", title := "RA", file_path := "F0", image_path := none,
    wordpress_id := some "1", status := "published" }

/-- State of `envStaleCleanup`'s run after trend `t1` (its remove attempt
failed, so `F0` is still on disk while `post_id` holds `"1"`). -/
def stAfterT1 : PState :=
  { results := [entryT1], files := ["F0"], counter := 1, removeCount := 1,
    post_id := some (some "1"), file_path := some "F0",
    image_path := some none, sleeps := [2, 5] }

/-!
Helper lemmas: projections of the pipeline onto the spec-side entry lists,
preservation facts, and characterizations of the cleanup and title logic.
-/

theorem articleTry_proj (env : Env) (trend : String) (a : Article)
    (ext html : String) (s : PState) :
    (caughtState (articleTry env trend a ext html s)).results
        = s.results ++ (tryEntries env trend a ext html s.counter).1 ∧
    (caughtState (articleTry env trend a ext html s)).counter
        = (tryEntries env trend a ext html s.counter).2 ∧
    (caughtState (articleTry env trend a ext html s)).sleeps
        = s.sleeps ++ (tryEntries env trend a ext html s.counter).1.map (fun _ => 2) := by
  rcases hr : env.rewrite html ext (a.source.getD "Fonte desconhecida") with u | rco
  · simp [articleTry, tryEntries, caughtState, hr]
  · rcases rco with _ | rc
    · simp [articleTry, tryEntries, caughtState, hr]
    · by_cases hrc : rc = ""
      · simp [articleTry, tryEntries, caughtState, hr, hrc]
      · rcases hs : env.soupOf rc with _ | soup
        · simp [articleTry, tryEntries, caughtState, hr, hrc, hs]
        · rcases hi : env.image (rewrittenTitle trend ext soup) rc with u | imgOpt
          · simp [articleTry, tryEntries, caughtState, save_article_to_file,
              hr, hrc, hs, hi]
          · by_cases hc : env.creds
            · rcases hp : env.publish (rewrittenTitle trend ext soup) rc imgOpt with u | pid
              · simp [articleTry, tryEntries, caughtState, save_article_to_file,
                  hr, hrc, hs, hi, hc, hp]
              · by_cases ht : truthy pid
                · simp [articleTry, tryEntries, caughtState, save_article_to_file,
                    hr, hrc, hs, hi, hc, hp, ht]
                · simp [articleTry, tryEntries, caughtState, save_article_to_file,
                    hr, hrc, hs, hi, hc, hp, ht]
            · simp [articleTry, tryEntries, caughtState, save_article_to_file,
                hr, hrc, hs, hi, hc]


theorem processArticle_proj (env : Env) (trend : String) (a : Article)
    (s : PState) :
    (processArticle env trend a s).results
        = s.results ++ (articleEntries env trend a s.counter).1 ∧
    (processArticle env trend a s).counter
        = (articleEntries env trend a s.counter).2 ∧
    (processArticle env trend a s).sleeps
        = s.sleeps ++ (articleEntries env trend a s.counter).1.map (fun _ => 2) := by
  by_cases hu : a.url = ""
  · simp [processArticle, articleEntries, hu]
  · rcases hf : env.fetch a.url with _ | html
    · simp [processArticle, articleEntries, hu, hf]
    · by_cases hh : html = ""
      · simp [processArticle, articleEntries, hu, hf, hh]
      · simpa [processArticle, articleEntries, hu, hf, hh] using
          articleTry_proj env trend a (working_title env html a.title) html s


theorem processArticles_proj (env : Env) (trend : String) :
    ∀ (arts : List Article) (s : PState),
    (processArticles env trend arts s).results
        = s.results ++ (trendEntries env trend arts s.counter).1 ∧
    (processArticles env trend arts s).counter
        = (trendEntries env trend arts s.counter).2
  | [], s => by simp [processArticles, trendEntries]
  | a :: rest, s => by
    have h1 := processArticle_proj env trend a s
    have h2 := processArticles_proj env trend rest (processArticle env trend a s)
    simp [processArticles, trendEntries, h1.1, h1.2.1, h2.1, h2.2]


theorem removeFile_proj (env : Env) (p : String) (s : PState) :
    (removeFile env p s).results = s.results ∧
    (removeFile env p s).counter = s.counter ∧
    (removeFile env p s).sleeps = s.sleeps := by
  unfold removeFile; split <;> simp


theorem cleanupStep_ok_proj (env : Env) {s s' : PState}
    (h : cleanupStep env s = .ok s') :
    s'.results = s.results ∧ s'.counter = s.counter ∧ s'.sleeps = s.sleeps := by
  rcases hp : s.post_id with _ | pid
  · simp [cleanupStep, hp] at h
  · by_cases ht : truthy pid
    · rcases hfp : s.file_path with _ | fp
      · simp [cleanupStep, hp, ht, hfp] at h
      · rcases him : s.image_path with _ | imgOpt
        · simp [cleanupStep, hp, ht, hfp, him] at h
        · rcases imgOpt with _ | ip
          · simp [cleanupStep, hp, ht, hfp, him] at h
            split at h <;> subst h <;> simp [removeFile_proj]
          · simp [cleanupStep, hp, ht, hfp, him] at h
            split at h <;> split at h <;>
              (rw [Except.ok.injEq] at h; subst h; simp [removeFile_proj])
    · simp [cleanupStep, hp, ht] at h
      subst h; exact ⟨rfl, rfl, rfl⟩


theorem processTrend_ok_proj (env : Env) (t : String) {s s' : PState}
    (h : processTrend env t s = .ok s') :
    s'.results = s.results ++ (trendEntries env t (env.news t) s.counter).1 ∧
    s'.counter = (trendEntries env t (env.news t) s.counter).2 := by
  rcases hn : env.news t with _ | ⟨a, rest⟩
  · simp only [processTrend, hn] at h
    rw [Except.ok.injEq] at h; subst h
    simp [trendEntries, hn]
  · simp only [processTrend, hn] at h
    have hc := cleanupStep_ok_proj env h
    have hp := processArticles_proj env t (a :: rest) s
    refine ⟨?_, ?_⟩
    · rw [hc.1]; simpa [hn] using hp.1
    · rw [hc.2.1]; simpa [hn] using hp.2


theorem processTrends_ok_proj (env : Env) :
    ∀ (ts : List String) (s s' : PState),
    processTrends env ts s = .ok s' →
    s'.results = s.results ++ resultsInOrder env ts s.counter
  | [], s, s', h => by
    simp only [processTrends] at h
    rw [Except.ok.injEq] at h; subst h
    simp [resultsInOrder]
  | t :: ts, s, s', h => by
    simp only [processTrends] at h
    rcases hstep : processTrend env t s with s1 | s1 <;> rw [hstep] at h
    · simp at h
    · have h1 := processTrend_ok_proj env t hstep
      have h2 := processTrends_ok_proj env ts s1 s' h
      rw [h2, h1.1, h1.2]
      simp [resultsInOrder]


theorem run_pipeline_error (env : Env) {s : PState}
    (h : processTrends env env.trends initState = .error s) :
    (run_pipeline env).success = false ∧ (run_pipeline env).resultsJson = none := by
  unfold run_pipeline
  rcases htr : env.trends with _ | ⟨t, rest⟩ <;> rw [htr] at h
  · simp [processTrends] at h
  · simp [h]


theorem truthy_isSome {p : Option String} (h : truthy p = true) : p.isSome := by
  cases p <;> simp_all [truthy]


theorem tryEntries_shape (env : Env) (t : String) (a : Article)
    (ext html : String) (c : Nat) :
    (tryEntries env t a ext html c).1 = [] ∨
    ∃ r, (tryEntries env t a ext html c).1 = [r] ∧ r.trend = t ∧
      (r.status = "published" → r.wordpress_id.isSome) := by
  rcases hr : env.rewrite html ext (a.source.getD "Fonte desconhecida") with u | rco
  · simp [tryEntries, hr]
  · rcases rco with _ | rc
    · simp [tryEntries, hr]
    · by_cases hrc : rc = ""
      · simp [tryEntries, hr, hrc]
      · rcases hs : env.soupOf rc with _ | soup
        · simp [tryEntries, hr, hrc, hs]
        · rcases hi : env.image (rewrittenTitle t ext soup) rc with u | imgOpt
          · simp [tryEntries, hr, hrc, hs, hi]
          · by_cases hc : env.creds
            · rcases hp : env.publish (rewrittenTitle t ext soup) rc imgOpt with u | pid
              · simp [tryEntries, hr, hrc, hs, hi, hc, hp]
              · by_cases ht : truthy pid
                · have he : (tryEntries env t a ext html c).1 =
                      [{ trend := t,
                         title := rewrittenTitle t ext soup,
                         file_path := env.savePath c (rewrittenTitle t ext soup),
                         image_path := imgOpt,
                         wordpress_id := pid,
                         status := "published" }] := by
                    simp [tryEntries, hr, hrc, hs, hi, hc, hp, ht]
                  exact Or.inr ⟨_, he, rfl, fun _ => truthy_isSome ht⟩
                · have he : (tryEntries env t a ext html c).1 =
                      [{ trend := t,
                         title := rewrittenTitle t ext soup,
                         file_path := env.savePath c (rewrittenTitle t ext soup),
                         image_path := imgOpt,
                         wordpress_id := none,
                         status := "not_published" }] := by
                    simp [tryEntries, hr, hrc, hs, hi, hc, hp, ht]
                  exact Or.inr ⟨_, he, rfl, fun hcon => by simp at hcon⟩
            · have he : (tryEntries env t a ext html c).1 =
                  [{ trend := t,
                     title := rewrittenTitle t ext soup,
                     file_path := env.savePath c (rewrittenTitle t ext soup),
                     image_path := imgOpt,
                     wordpress_id := none,
                     status := "not_published_no_credentials" }] := by
                simp [tryEntries, hr, hrc, hs, hi, hc]
              exact Or.inr ⟨_, he, rfl, fun hcon => by simp at hcon⟩


theorem articleEntries_shape (env : Env) (t : String) (a : Article) (c : Nat) :
    (articleEntries env t a c).1 = [] ∨
    ∃ r, (articleEntries env t a c).1 = [r] ∧ r.trend = t ∧
      (r.status = "published" → r.wordpress_id.isSome) := by
  by_cases hu : a.url = ""
  · simp [articleEntries, hu]
  · rcases hf : env.fetch a.url with _ | html
    · simp [articleEntries, hu, hf]
    · by_cases hh : html = ""
      · simp [articleEntries, hu, hf, hh]
      · simpa [articleEntries, hu, hf, hh] using
          tryEntries_shape env t a (working_title env html a.title) html c


theorem trendEntries_published (env : Env) (t : String) :
    ∀ (arts : List Article) (c : Nat) (r : Result),
    r ∈ (trendEntries env t arts c).1 → r.status = "published" →
    r.wordpress_id.isSome
  | [], c, r => by simp [trendEntries]
  | a :: rest, c, r => by
    intro hmem hst
    simp only [trendEntries, List.mem_append] at hmem
    rcases hmem with hmem | hmem
    · rcases articleEntries_shape env t a c with hsh | ⟨r', hsh, _, hpub⟩
      · simp [hsh] at hmem
      · rw [hsh] at hmem; simp at hmem; subst hmem; exact hpub hst
    · exact trendEntries_published env t rest _ r hmem hst


theorem resultsInOrder_published (env : Env) :
    ∀ (ts : List String) (c : Nat) (r : Result),
    r ∈ resultsInOrder env ts c → r.status = "published" →
    r.wordpress_id.isSome
  | [], c, r => by simp [resultsInOrder]
  | t :: ts, c, r => by
    intro hmem hst
    simp only [resultsInOrder, List.mem_append] at hmem
    rcases hmem with hmem | hmem
    · exact trendEntries_published env t (env.news t) c r hmem hst
    · exact resultsInOrder_published env ts _ r hmem hst


theorem filter_ne_of_not_mem {l : List String} {x : String} (h : x ∉ l) :
    l.filter (· ≠ x) = l := by
  rw [List.filter_eq_self]
  intro a ha
  simp
  exact fun he => h (he ▸ ha)


theorem cleanupStep_truthy_files (env : Env) (s : PState) (pid : Option String)
    (fp : String) (io : Option String)
    (hrm : ∀ n, env.removeOk n = true)
    (h1 : s.post_id = some pid) (h2 : truthy pid = true)
    (h3 : s.file_path = some fp) (h4 : s.image_path = some io) :
    ∃ s', cleanupStep env s = .ok s' ∧ s'.results = s.results ∧
      s'.files = filesAfterCleanup s.files fp io := by
  rcases io with _ | ip
  · by_cases hfp : fp ∈ s.files
    · exact ⟨removeFile env fp s,
        by simp [cleanupStep, h1, h2, h3, h4, hfp],
        by simp [removeFile, hrm],
        by simp [removeFile, hrm, filesAfterCleanup]⟩
    · refine ⟨s, by simp [cleanupStep, h1, h2, h3, h4, hfp], rfl, ?_⟩
      simp only [filesAfterCleanup]
      symm
      rw [List.filter_eq_self]
      intro a ha
      simp
      exact fun he => hfp (he ▸ ha)
  · by_cases hfp : fp ∈ s.files
    · by_cases hip : ip ∈ (removeFile env fp s).files
      · exact ⟨removeFile env ip (removeFile env fp s),
          by simp [cleanupStep, h1, h2, h3, h4, hfp, hip],
          by simp [removeFile, hrm],
          by simp [removeFile, hrm, filesAfterCleanup]⟩
      · refine ⟨removeFile env fp s,
          by simp [cleanupStep, h1, h2, h3, h4, hfp, hip],
          by simp [removeFile, hrm], ?_⟩
        have hip2 : ∀ a ∈ s.files, a = ip → a = fp := by
          intro a ha hae
          by_contra hne
          refine hip (by simp [removeFile, hrm]; exact ⟨hae ▸ ha, hae ▸ hne⟩)
        simp only [filesAfterCleanup]
        simp [removeFile, hrm]
        apply List.filter_congr
        intro a ha
        by_cases hafp : a = fp
        · simp [hafp]
        · by_cases haip : a = ip
          · exact absurd (hip2 a ha haip) hafp
          · simp [hafp, haip]
    · by_cases hip : ip ∈ s.files
      · refine ⟨removeFile env ip s,
          by simp [cleanupStep, h1, h2, h3, h4, hfp, hip],
          by simp [removeFile, hrm], ?_⟩
        simp only [filesAfterCleanup]
        simp [removeFile, hrm]
        apply List.filter_congr
        intro a ha
        have : a ≠ fp := fun he => hfp (he ▸ ha)
        simp [this]
      · refine ⟨s,
          by simp [cleanupStep, h1, h2, h3, h4, hfp, hip],
          rfl, ?_⟩
        simp only [filesAfterCleanup]
        simp
        symm
        rw [List.filter_eq_self]
        intro a ha
        have h5 : a ≠ fp := fun he => hfp (he ▸ ha)
        have h6 : a ≠ ip := fun he => hip (he ▸ ha)
        simp [h5, h6]


theorem articleTry_error_no_entry (env : Env) (t : String) (a : Article)
    (ext html : String) (s s' : PState)
    (h : articleTry env t a ext html s = .error s') :
    s'.results = s.results ∧ caughtState (articleTry env t a ext html s) = s' := by
  refine ⟨?_, by rw [h]; rfl⟩
  rcases hr : env.rewrite html ext (a.source.getD "Fonte desconhecida") with u | rco
  · simp [articleTry, hr] at h; subst h; rfl
  · rcases rco with _ | rc
    · simp [articleTry, hr] at h
    · by_cases hrc : rc = ""
      · simp [articleTry, hr, hrc] at h
      · rcases hs : env.soupOf rc with _ | soup
        · simp [articleTry, hr, hrc, hs] at h; subst h; rfl
        · rcases hi : env.image (rewrittenTitle t ext soup) rc with u | imgOpt
          · simp [articleTry, hr, hrc, hs, hi, save_article_to_file] at h
            subst h; rfl
          · by_cases hc : env.creds
            · rcases hp : env.publish (rewrittenTitle t ext soup) rc imgOpt with u | pid
              · simp [articleTry, hr, hrc, hs, hi, hc, hp, save_article_to_file] at h
                subst h; rfl
              · by_cases ht : truthy pid <;>
                  simp [articleTry, hr, hrc, hs, hi, hc, hp, ht, save_article_to_file] at h
            · simp [articleTry, hr, hrc, hs, hi, hc, save_article_to_file] at h


theorem extract_first_h1 (soupOf : String → Option Soup) (html : String)
    (sp : Soup) (tx : String)
    (hs : soupOf html = some sp) (h1 : sp.select_one "h1" = some tx)
    (hne : strip tx ≠ "") :
    extract_article_title_from_html soupOf html = some (strip tx) := by
  simp [extract_article_title_from_html, hs, title_selectors, h1, hne]


theorem extract_fallback_title (soupOf : String → Option Soup) (html : String)
    (sp : Soup)
    (hs : soupOf html = some sp)
    (hmiss : ∀ sel ∈ title_selectors, sp.select_one sel = none) :
    extract_article_title_from_html soupOf html = sp.titleTag.map strip := by
  have m1 := hmiss "h1" (by simp [title_selectors])
  have m2 := hmiss "h1.article-title" (by simp [title_selectors])
  have m3 := hmiss "h1.entry-title" (by simp [title_selectors])
  have m4 := hmiss "h1.post-title" (by simp [title_selectors])
  have m5 := hmiss "article h1" (by simp [title_selectors])
  have m6 := hmiss ".article-header h1" (by simp [title_selectors])
  have m7 := hmiss ".post-header h1" (by simp [title_selectors])
  simp [extract_article_title_from_html, hs, title_selectors,
    m1, m2, m3, m4, m5, m6, m7]


theorem processArticle_entry (env : Env) (t : String) (a : Article) (s : PState)
    (html rc : String) (soup : Soup) (io : Option String) (pid : Option String)
    (hu : a.url ≠ "")
    (hf : env.fetch a.url = some html)
    (hh : html ≠ "")
    (hr : env.rewrite html (working_title env html a.title)
        (a.source.getD "Fonte desconhecida") = .ok (some rc))
    (hrc : rc ≠ "")
    (hsp : env.soupOf rc = some soup)
    (hi : env.image (rewrittenTitle t (working_title env html a.title) soup) rc
        = .ok io)
    (hp : env.creds = true →
        env.publish (rewrittenTitle t (working_title env html a.title) soup) rc io
          = .ok pid) :
    ∃ e : Result, (processArticle env t a s).results = s.results ++ [e] ∧
      e.title = rewrittenTitle t (working_title env html a.title) soup := by
  by_cases hc : env.creds
  · by_cases ht : truthy pid
    · exact ⟨{ trend := t,
               title := rewrittenTitle t (working_title env html a.title) soup,
               file_path := env.savePath s.counter
                 (rewrittenTitle t (working_title env html a.title) soup),
               image_path := io,
               wordpress_id := pid,
               status := "published" },
        by simp [processArticle, caughtState, articleTry, save_article_to_file,
          hu, hf, hh, hr, hrc, hsp, hi, hc, hp hc, ht], rfl⟩
    · exact ⟨{ trend := t,
               title := rewrittenTitle t (working_title env html a.title) soup,
               file_path := env.savePath s.counter
                 (rewrittenTitle t (working_title env html a.title) soup),
               image_path := io,
               wordpress_id := none,
               status := "not_published" },
        by simp [processArticle, caughtState, articleTry, save_article_to_file,
          hu, hf, hh, hr, hrc, hsp, hi, hc, hp hc, ht], rfl⟩
  · exact ⟨{ trend := t,
             title := rewrittenTitle t (working_title env html a.title) soup,
             file_path := env.savePath s.counter
               (rewrittenTitle t (working_title env html a.title) soup),
             image_path := io,
             wordpress_id := none,
             status := "not_published_no_credentials" },
      by simp [processArticle, caughtState, articleTry, save_article_to_file,
        hu, hf, hh, hr, hrc, hsp, hi, hc], rfl⟩


theorem view_withView (σ : Sys) (i : Bool) (v : TrigView) :
    (σ.withView i v).view i = v := by
  cases i <;> rfl



theorem run_results_in_order (env : Env) (summ : Summary)
    (h : (run_pipeline env).resultsJson = some summ) :
    summ.total_processed = summ.results.length ∧
    summ.results = resultsInOrder env env.trends 0 := by
  rcases htr : env.trends with _ | ⟨t, rest⟩
  · simp [run_pipeline, htr] at h
  · rcases hpt : processTrends env (t :: rest) initState with s | s
    · simp [run_pipeline, htr, hpt] at h
    · simp only [run_pipeline, htr, hpt, Option.some.injEq] at h
      have hres := processTrends_ok_proj env (t :: rest) initState s hpt
      subst h
      refine ⟨rfl, ?_⟩
      simpa [initState] using hres

/-!
Claim theorems.
-/

/-- Claim C1.  The claim states that with WordPress credentials absent and an
article whose rewrite succeeds, the run records a
`not_published_no_credentials` entry, attempts no publish, removes no files,
and completes with that entry in the persisted `results.json`.  The code
does record the entry in memory, attempts no publish (the publish oracle of
`envNoCreds` raises if invoked, and the recorded entry proves it was not),
and removes no file — but the run does not complete: the trend cleanup reads
the `post_id` local, which was never assigned on the no-credentials path, so
a `NameError` escapes to the top-level handler, `run_pipeline` returns
`False`, and `results.json` is never written.  This theorem evaluates the
embedded code at that failing input. -/
theorem claim_C1 :
    run_pipeline envNoCreds =
      { success := false,
        trendsWritten := true,
        resultsJson := none,
        memResults := [entryNC],
        files := ["F0"],
        sleeps := [2, 5] } := by decide

/-- Claim C2, amended.  Every result entry whose status is `published`
carries a non-null `wordpress_id`.  The per-trend cleanup is a no-op when
the most recently bound publish identifier is falsy; when it is truthy (and
the `file_path`/`image_path` locals are bound, and removals succeed) the
cleanup deletes exactly the currently referenced markup file and image file
— which may belong to a different article than the published one — and no
other file: files of earlier articles in the trend persist regardless of
their status. -/
theorem claim_C2 :
    (∀ (env : Env) (summ : Summary) (r : Result),
        (run_pipeline env).resultsJson = some summ → r ∈ summ.results →
        r.status = "published" → r.wordpress_id.isSome) ∧
    (∀ (env : Env) (s : PState) (pid : Option String),
        s.post_id = some pid → truthy pid = false → cleanupStep env s = .ok s) ∧
    (∀ (env : Env) (s : PState) (pid : Option String) (fp : String)
        (io : Option String),
        (∀ n, env.removeOk n = true) → s.post_id = some pid →
        truthy pid = true → s.file_path = some fp → s.image_path = some io →
        ∃ s', cleanupStep env s = .ok s' ∧ s'.results = s.results ∧
          s'.files = filesAfterCleanup s.files fp io) := by
  refine ⟨?_, ?_, ?_⟩
  · intro env summ r h hm hst
    have h2 := (run_results_in_order env summ h).2
    rw [h2] at hm
    exact resultsInOrder_published env env.trends 0 r hm hst
  · intro env s pid h1 h2
    simp [cleanupStep, h1, h2]
  · exact cleanupStep_truthy_files

/-- Claim C2, counterexample.  In `envTwoPublished`'s run both articles of
the trend are recorded `published` and the cleanup executed, yet the first
published article's markup file `F0` still exists on disk — refuting the
claim that every published entry's files no longer exist after cleanup
(only the last processed article's files are deleted). -/
theorem claim_C2_counterexample :
    (run_pipeline envTwoPublished).success = true ∧
    (run_pipeline envTwoPublished).memResults.map Result.status
      = ["published", "published"] ∧
    ¬ (∀ r ∈ (run_pipeline envTwoPublished).memResults,
        r.status = "published" →
        r.file_path ∉ (run_pipeline envTwoPublished).files) := by decide

/-- Claim C2, witness: the amended theorem applied at concrete inputs — the
published entry `entryA` of `envTwoPublished`, a falsy-`post_id` cleanup,
and a truthy-`post_id` cleanup over the file set `["F0"]`. -/
theorem claim_C2_witness :
    entryA.wordpress_id.isSome ∧
    cleanupStep envNoCreds { initState with post_id := some none }
      = .ok { initState with post_id := some none } ∧
    (∃ s', cleanupStep envNoCreds
        { initState with
          post_id := some (some "1"),
          file_path := some "F0",
          image_path := some none,
          files := ["F0"] } = .ok s' ∧
      s'.results = ({ initState with
          post_id := some (some "1"),
          file_path := some "F0",
          image_path := some none,
          files := ["F0"] } : PState).results ∧
      s'.files = filesAfterCleanup ["F0"] "F0" none) :=
  ⟨claim_C2.1 envTwoPublished summAB entryA (by decide) (by decide) (by decide),
   claim_C2.2.1 envNoCreds _ none rfl rfl,
   claim_C2.2.2 envNoCreds _ (some "1") "F0" none (fun _ => rfl) rfl rfl rfl rfl⟩

/-- Claim C3, counterexample.  In the interleaving where the accepted
trigger builds its 202 response before the spawned thread runs,
`is_running` is still false after the trigger returns, and the response's
`started_at` is the previous `last_run` value (`none` here), not this run's
start time (10): the guard-and-set does not happen on the triggering path. -/
theorem claim_C3_counterexample :
    (execSys trackSpec [Step.check false]).t0.accepted = some true ∧
    (execSys trackSpec [Step.check false]).st.is_running = false ∧
    (execSys trackSpec [Step.check false, Step.respond false]).t0.response_started_at
      = some none ∧
    (trackSpec false).time = 10 ∧
    (execSys trackSpec [Step.check false, Step.respond false]).t0.response_started_at
      ≠ some (some 10) ∧
    get_pipeline_status (execSys trackSpec [Step.check false, Step.respond false])
      = (false, none, none) := by decide

/-- Claim C3, amended.  An accepted `start()` spawns the run on a background
thread whose first step sets `is_running := true` and `last_run := now`; the
acceptance response's `started_at` reads `last_run` at response time, so it
reflects this run's start — and a subsequent `status()` read observes
`is_running = true` — only in interleavings where the thread's set step has
already executed, as in the schedule proved here. -/
theorem claim_C3 :
    (execSys trackSpec [Step.check false, Step.bgset false]).st.is_running = true ∧
    (execSys trackSpec [Step.check false, Step.bgset false]).st.last_run = some 10 ∧
    (execSys trackSpec [Step.check false, Step.bgset false,
        Step.respond false]).t0.response_started_at = some (some 10) ∧
    get_pipeline_status (execSys trackSpec [Step.check false, Step.bgset false,
        Step.respond false]) = (true, some 10, none) := by decide

/-- Claim C4, counterexample.  Two `start()` calls from idle whose guard
checks both run before either spawned thread sets `is_running` are both
accepted — refuting "exactly one accepted regardless of timing". -/
theorem claim_C4_counterexample :
    (execSys trackSpec [Step.check false, Step.check true]).t0.accepted = some true ∧
    (execSys trackSpec [Step.check false, Step.check true]).t1.accepted = some true := by
  decide

/-- Claim C4, amended.  A `start()` whose guard check observes
`is_running = true` is always rejected, and its 409 response carries the
current `last_run`; hence in interleavings where the first accepted call's
background thread sets `is_running` before the second call's check, exactly
one of the two calls is accepted.  Mutual exclusion is not guaranteed for
other interleavings (see the counterexample). -/
theorem claim_C4 :
    (∀ (i : Bool) (σ : Sys), σ.st.is_running = true →
        (σ.view i).accepted = none →
        ((trigger_check i σ).view i).accepted = some false ∧
        ((trigger_check i σ).view i).response_started_at = some σ.st.last_run) ∧
    (execSys trackSpec [Step.check false, Step.bgset false,
        Step.check true]).t0.accepted = some true ∧
    (execSys trackSpec [Step.check false, Step.bgset false,
        Step.check true]).t1.accepted = some false ∧
    (execSys trackSpec [Step.check false, Step.bgset false,
        Step.check true]).t1.response_started_at = some (some 10) := by
  refine ⟨?_, by decide, by decide, by decide⟩
  intro i σ h1 h2
  simp [trigger_check, h1, h2, view_withView]

/-- Claim C4, witness: the rejection law applied to the concrete system
state reached after the first call's thread has set `is_running`. -/
theorem claim_C4_witness :
    ((trigger_check true (execSys trackSpec
        [Step.check false, Step.bgset false])).view true).accepted = some false ∧
    ((trigger_check true (execSys trackSpec
        [Step.check false, Step.bgset false])).view true).response_started_at
      = some (some 10) := by
  have h := claim_C4.1 true (execSys trackSpec [Step.check false, Step.bgset false])
    (by decide) (by decide)
  exact ⟨h.1, h.2.trans (by decide)⟩

/-- Claim C5.  When the Trend Source returns an empty list, `run_pipeline`
returns false immediately: `trends.json` is not written, no `results.json`
is produced, no files are created and no sleeps happen; and the tracker's
background path, completing with that boolean, records
`last_status = "error"`. -/
theorem claim_C5 : ∀ env : Env, env.trends = [] →
    run_pipeline env =
      { success := false,
        trendsWritten := false,
        resultsJson := none,
        memResults := [],
        files := [],
        sleeps := [] } ∧
    ∀ (t : Nat) (ld : Option Summary),
      (execSys (fun _ =>
          { time := t, success := (run_pipeline env).success, persisted := ld })
        [Step.check false, Step.bgset false, Step.bgfin false]).st.last_status
        = some "error" := by
  intro env h
  have h1 : run_pipeline env =
      { success := false,
        trendsWritten := false,
        resultsJson := none,
        memResults := [],
        files := [],
        sleeps := [] } := by
    simp [run_pipeline, h]
  refine ⟨h1, ?_⟩
  intro t ld
  rw [h1]
  simp [execSys, stepSys, trigger_check, trigger_respond, bg_set, bg_finish,
    initSys, initTracker, initView, Sys.view, Sys.withView]

/-- Claim C5, witness: the theorem applied to `envNoTrends`, whose trend
source yields nothing. -/
theorem claim_C5_witness :
    run_pipeline envNoTrends =
      { success := false,
        trendsWritten := false,
        resultsJson := none,
        memResults := [],
        files := [],
        sleeps := [] } ∧
    (execSys (fun _ =>
        { time := 3, success := (run_pipeline envNoTrends).success,
          persisted := none })
      [Step.check false, Step.bgset false, Step.bgfin false]).st.last_status
      = some "error" :=
  ⟨(claim_C5 envNoTrends rfl).1, (claim_C5 envNoTrends rfl).2 3 none⟩

/-- Claim C6, counterexample.  In `envSkipNoSleep`'s run the trend has two
candidates; the second is skipped (empty url) and gets no per-article delay:
the sleep trace is `[2, 5]`, not one 2-second delay per finished-or-skipped
article.  The per-article `time.sleep(2)` sits at the end of the `try`
block, so every skip path bypasses it. -/
theorem claim_C6_counterexample :
    envSkipNoSleep.news "t" =
      [{ title := "A", url := "ua", source := some "S" },
       { title := "B", url := "", source := some "S" }] ∧
    (run_pipeline envSkipNoSleep).success = true ∧
    (run_pipeline envSkipNoSleep).memResults.length = 1 ∧
    (run_pipeline envSkipNoSleep).sleeps = [2, 5] :=
  ⟨rfl, by decide, by decide, by decide⟩

/-- Claim C6, amended.  The orchestrator suspends for the fixed 2-second
delay exactly after articles that complete processing through
result-recording (an article either changes neither the result list nor the
sleep trace, or appends one result and one 2-second sleep); skipped articles
proceed immediately.  A trend with no news candidates is skipped entirely
(no sleep, no cleanup); a trend with candidates records one 5-second sleep
after its article loop, before its cleanup. -/
theorem claim_C6 :
    (∀ (env : Env) (t : String) (a : Article) (s : PState),
        ((processArticle env t a s).results = s.results ∧
         (processArticle env t a s).sleeps = s.sleeps) ∨
        (∃ r, (processArticle env t a s).results = s.results ++ [r] ∧
         (processArticle env t a s).sleeps = s.sleeps ++ [2])) ∧
    (∀ (env : Env) (t : String) (s : PState),
        env.news t = [] → processTrend env t s = .ok s) ∧
    (∀ (env : Env) (t : String) (s : PState) (a : Article) (rest : List Article),
        env.news t = a :: rest →
        processTrend env t s = cleanupStep env
          { processArticles env t (a :: rest) s with
            sleeps := (processArticles env t (a :: rest) s).sleeps ++ [5] }) := by
  refine ⟨?_, ?_, ?_⟩
  · intro env t a s
    have hp := processArticle_proj env t a s
    rcases articleEntries_shape env t a s.counter with hsh | ⟨r, hsh, _, _⟩
    · exact Or.inl ⟨by rw [hp.1, hsh]; simp, by rw [hp.2.2, hsh]; simp⟩
    · exact Or.inr ⟨r, by rw [hp.1, hsh], by rw [hp.2.2, hsh]; simp⟩
  · intro env t s h
    simp [processTrend, h]
  · intro env t s a rest h
    simp [processTrend, h]

/-- Claim C6, witness: the trend-level clauses applied to `envNoCreds` — a
trend with no candidates is a no-op, and the trend `"t"` runs its article
loop, then the 5-second sleep, then the cleanup. -/
theorem claim_C6_witness :
    processTrend envNoCreds "x" initState = .ok initState ∧
    processTrend envNoCreds "t" initState = cleanupStep envNoCreds
      { processArticles envNoCreds "t"
          [{ title := "A", url := "ua", source := some "S" }] initState with
        sleeps := (processArticles envNoCreds "t"
          [{ title := "A", url := "ua", source := some "S" }] initState).sleeps
            ++ [5] } :=
  ⟨claim_C6.2.1 envNoCreds "x" initState rfl,
   claim_C6.2.2 envNoCreds "t" initState
     { title := "A", url := "ua", source := some "S" } [] rfl⟩

/-- Claim C7.  An exception raised inside one article's `try` block is
caught and treated as skipping that article: it contributes no result entry
and processing continues with the partially mutated state; the article loop
always proceeds to the remaining candidates; and any exception escaping the
trend loop (the cleanup `NameError` is the only one in the embedding) is
caught at the top level, making `run_pipeline` return false with no
`results.json` — `run_pipeline` is a total function into a boolean-carrying
outcome, so no exception ever propagates past the run boundary. -/
theorem claim_C7 :
    (∀ (env : Env) (t : String) (a : Article) (ext html : String)
        (s s' : PState),
        articleTry env t a ext html s = .error s' →
        s'.results = s.results ∧
        caughtState (articleTry env t a ext html s) = s') ∧
    (∀ (env : Env) (t : String) (a : Article) (rest : List Article) (s : PState),
        processArticles env t (a :: rest) s
          = processArticles env t rest (processArticle env t a s)) ∧
    (∀ (env : Env) (s : PState),
        processTrends env env.trends initState = .error s →
        (run_pipeline env).success = false ∧
        (run_pipeline env).resultsJson = none) :=
  ⟨fun env t a ext html s s' h => articleTry_error_no_entry env t a ext html s s' h,
   fun _ _ _ _ _ => rfl,
   fun env _ h => run_pipeline_error env h⟩

/-- Claim C7, witness: an article whose rewrite raises (html `"hx"` is
unknown to `envNoCreds`'s rewrite oracle) is caught with no new entry, and
`envNoCreds`'s run — whose cleanup `NameError` escapes the trend loop — is
caught at the top level and returns false. -/
theorem claim_C7_witness :
    (stErrNoCreds.results = stErrNoCreds.results ∧
      caughtState (articleTry envNoCreds "t"
        { title := "A", url := "ua", source := some "S" } "TA" "hx" stErrNoCreds)
        = stErrNoCreds) ∧
    ((run_pipeline envNoCreds).success = false ∧
      (run_pipeline envNoCreds).resultsJson = none) :=
  ⟨claim_C7.1 envNoCreds "t" { title := "A", url := "ua", source := some "S" }
      "TA" "hx" stErrNoCreds stErrNoCreds rfl,
   claim_C7.2.2 envNoCreds stErrNoCreds rfl⟩

/-- Claim C8.  For a processed article, the rewrite is invoked with the
working title — the title extracted from the fetched markup, else the
candidate's title: `extract_article_title_from_html` returns the stripped
text of the first selector hit (`"h1"` heads the prioritized list), falls
back to the document `<title>` element when every selector misses, and
`working_title` falls back to the candidate's title when extraction yields
nothing or an empty string.  The recorded entry's final title is the
stripped first top-level heading of the rewritten markup or, if absent, the
synthesized string — the spec's `"Trend: {trend} - {working title}"` is the
code's literal `"Tendência: {trend} - {extracted_title}"`. -/
theorem claim_C8 : ∀ (env : Env) (t : String) (a : Article) (s : PState)
    (html rc : String) (soup : Soup) (io : Option String) (pid : Option String),
    a.url ≠ "" →
    env.fetch a.url = some html →
    html ≠ "" →
    env.rewrite html (working_title env html a.title)
      (a.source.getD "Fonte desconhecida") = .ok (some rc) →
    rc ≠ "" →
    env.soupOf rc = some soup →
    env.image (rewrittenTitle t (working_title env html a.title) soup) rc
      = .ok io →
    (env.creds = true →
      env.publish (rewrittenTitle t (working_title env html a.title) soup) rc io
        = .ok pid) →
    (∃ e : Result, (processArticle env t a s).results = s.results ++ [e] ∧
        e.title = rewrittenTitle t (working_title env html a.title) soup) ∧
    (∀ w, extract_article_title_from_html env.soupOf html = some w → w ≠ "" →
        working_title env html a.title = w) ∧
    (extract_article_title_from_html env.soupOf html = none →
        working_title env html a.title = a.title) ∧
    (∀ (sp : Soup) (tx : String), env.soupOf html = some sp →
        sp.select_one "h1" = some tx → strip tx ≠ "" →
        extract_article_title_from_html env.soupOf html = some (strip tx)) ∧
    (∀ sp : Soup, env.soupOf html = some sp →
        (∀ sel ∈ title_selectors, sp.select_one sel = none) →
        extract_article_title_from_html env.soupOf html = sp.titleTag.map strip) ∧
    (∀ tx, soup.select_one "h1" = some tx →
        rewrittenTitle t (working_title env html a.title) soup = strip tx) ∧
    (soup.select_one "h1" = none →
        rewrittenTitle t (working_title env html a.title) soup
          = "Tendência: " ++ t ++ " - " ++ working_title env html a.title) := by
  intro env t a s html rc soup io pid hu hf hh hr hrc hsp hi hp
  refine ⟨processArticle_entry env t a s html rc soup io pid hu hf hh hr hrc hsp hi hp,
    ?_, ?_, ?_, ?_, ?_, ?_⟩
  · intro w hw hne
    simp [working_title, hw, hne]
  · intro hw
    simp [working_title, hw]
  · intro sp tx h1 h2 h3
    exact extract_first_h1 env.soupOf html sp tx h1 h2 h3
  · intro sp h1 h2
    exact extract_fallback_title env.soupOf html sp h1 h2
  · intro tx h1
    simp [rewrittenTitle, h1]
  · intro h1
    simp [rewrittenTitle, h1]

/-- Claim C8, witness: the title law applied to `envTwoPublished`'s first
article, whose recorded entry's title is the `h1` of the rewritten markup. -/
theorem claim_C8_witness :
    ∃ e : Result,
      (processArticle envTwoPublished "t"
        { title := "A", url := "ua", source := some "S" } initState).results
        = initState.results ++ [e] ∧
      e.title = rewrittenTitle "t"
        (working_title envTwoPublished "ha" "A") (soupH1 "RA") :=
  (claim_C8 envTwoPublished "t" { title := "A", url := "ua", source := some "S" }
    initState "ha" "ra" (soupH1 "RA") none (some "1")
    (by decide) rfl (by decide) rfl (by decide) rfl rfl (fun _ => rfl)).1

/-- Claim C9.  Whenever a run completes and persists `results.json`, its
`total_processed` equals the length of its `results` list, and the list
equals the spec-side projection that enumerates trends in Trend Source
order and articles within a trend in News Source order. -/
theorem claim_C9 : ∀ (env : Env) (summ : Summary),
    (run_pipeline env).resultsJson = some summ →
    summ.total_processed = summ.results.length ∧
    summ.results = resultsInOrder env env.trends 0 :=
  fun env summ h => run_results_in_order env summ h

/-- Claim C9, witness: the theorem applied to `envTwoPublished`'s run, which
persists `summAB`. -/
theorem claim_C9_witness :
    summAB.total_processed = summAB.results.length ∧
    summAB.results = resultsInOrder envTwoPublished envTwoPublished.trends 0 :=
  claim_C9 envTwoPublished summAB (by decide)

/-- Claim C10.  The cleanup reads the `post_id`/`file_path`/`image_path`
locals left behind by whichever article last assigned them: if `post_id`
was never assigned when a trend's cleanup runs, the cleanup raises the
undefined-name error (modelled as the `.error` outcome), which aborts the
run — `run_pipeline` returns false and writes no `results.json`.  Otherwise
the stale `post_id` can gate deletion of another trend's leftovers: in
`envStaleCleanup`'s run, file `F0` (trend `t1`'s published article, whose
own remove attempt failed) still exists after trend `t1`, and trend `t2` —
all of whose candidates were skipped — deletes it during its cleanup. -/
theorem claim_C10 :
    (∀ (env : Env) (s : PState), s.post_id = none →
        cleanupStep env s = .error s) ∧
    (∀ (env : Env) (s : PState),
        processTrends env env.trends initState = .error s →
        (run_pipeline env).success = false ∧
        (run_pipeline env).resultsJson = none) ∧
    processTrends envStaleCleanup ["t1"] initState = .ok stAfterT1 ∧
    "F0" ∈ stAfterT1.files ∧
    (run_pipeline envStaleCleanup).success = true ∧
    (run_pipeline envStaleCleanup).files = [] ∧
    (run_pipeline envStaleCleanup).memResults = [entryT1] := by
  refine ⟨?_, ?_, rfl, by decide, by decide, by decide, by decide⟩
  · intro env s h
    simp [cleanupStep, h]
  · intro env s h
    exact run_pipeline_error env h

/-- Claim C10, witness: the unbound-`post_id` law applied to the initial
state, and the abort law applied to `envNoCreds`'s run. -/
theorem claim_C10_witness :
    cleanupStep envNoCreds initState = .error initState ∧
    ((run_pipeline envNoCreds).success = false ∧
      (run_pipeline envNoCreds).resultsJson = none) :=
  ⟨claim_C10.1 envNoCreds initState rfl,
   claim_C10.2.1 envNoCreds stErrNoCreds rfl⟩


end NewsTrend
